import Mathlib

/-!
# Volt Protocol — Stream Accounting & Marketplace Matching Engine

Shallow embedding of the core of the `volt-protocol` repository:

* `updateStreamBalances` and the implied-value recompute effect
  (`src/src/context/VoltContext.jsx`),
* the risk scoring function `calculateStreamRisk`
  (`src/unnamed/part_002`, exported as `useRiskEngine`),
* the bid lifecycle operations `placeBid` / `cancelBid` / `acceptBid` /
  `rejectBid` (`src/src/context/VoltContext.jsx`),
* the Matching Agent scan (`src/src/hooks/useSniperBot.js`).

JavaScript numbers are modelled as rationals (`ℚ`); `Math.round` is
modelled as `⌊q + 1/2⌋`, which agrees with JS rounding (half away from
zero towards +∞) on every rational.  Fallible operations return
`Except`.  Fields of the JS objects that none of the modelled
operations read are omitted from the structures.
-/

namespace Volt

/-- JS `Math.round`: round half towards positive infinity. -/
def jsRound (q : ℚ) : ℤ := ⌊q + 1/2⌋

/-- `Math.round(q * 1000000) / 1000000` — the 6-decimal rounding used by
the accounting refresh and the implied-value recompute. -/
def round6 (q : ℚ) : ℚ := (jsRound (q * 1000000) : ℚ) / 1000000

/-- `Math.round(q * 100) / 100` — the 2-decimal rounding used for the
risk breakdown fields. -/
def round2 (q : ℚ) : ℚ := (jsRound (q * 100) : ℚ) / 100

/-- A stream snapshot as held in `activeStreams`
(`src/src/context/VoltContext.jsx`).  Fields not read by the modelled
operations (`claimedAmount`, `isActive`, …) are omitted. -/
structure Stream where
  id : String
  sender : String
  receiver : String
  totalDeposit : ℚ
  startTime : ℚ
  duration : ℚ
  flowedAmount : ℚ
  remainingBalance : ℚ
  deriving DecidableEq, Repr

/-- An order-book entry (`src/src/context/VoltContext.jsx`). -/
structure Order where
  id : String
  streamId : String
  seller : String
  percentage : ℚ
  priceRatio : ℚ
  riskScore : ℚ
  impliedValue : ℚ
  deriving DecidableEq, Repr

/-- Bid status strings `'pending' | 'accepted' | 'rejected' | 'cancelled'`. -/
inductive BidStatus where
  | pending
  | accepted
  | rejected
  | cancelled
  deriving DecidableEq, Repr

/-- A bid as created by `placeBid` (`src/src/context/VoltContext.jsx`). -/
structure Bid where
  id : String
  orderId : String
  bidder : String
  amount : ℚ
  discount : ℚ
  priceRatio : ℚ
  status : BidStatus
  createdAt : ℤ
  deriving DecidableEq, Repr

/-- A trade-history entry as appended by `acceptBid`. -/
structure Trade where
  id : String
  orderId : String
  streamId : String
  seller : String
  buyer : String
  amount : ℚ
  price : ℚ
  percentage : ℚ
  executedAt : ℤ
  viaBid : Bool
  bidId : Option String
  deriving DecidableEq, Repr

/-- An order-history entry (`status ∈ {listed, sold, cancelled}`).  The
live `VoltContext.jsx` only loads and persists this list; none of the
modelled operations construct entries, so only the discriminating
fields are kept. -/
structure OrderHistoryEntry where
  orderId : String
  status : String
  deriving DecidableEq, Repr

/-- The connected user (`user` state in `VoltContext.jsx`); only the
fields read by the modelled operations are kept. -/
structure VoltUser where
  address : Option String
  balanceVUSDC : ℚ
  deriving DecidableEq, Repr

/-- The provider state manipulated by the bid lifecycle. -/
structure VoltState where
  user : VoltUser
  activeStreams : List Stream
  orderBook : List Order
  bids : List Bid
  orderHistory : List OrderHistoryEntry
  tradeHistory : List Trade
  deriving DecidableEq, Repr

/-! ## Stream Accounting (`updateStreamBalances`, VoltContext.jsx lines 116-134) -/

/-- The un-rounded flowed amount:
`min(max(0, now - startTime) * ratePerSecond, totalDeposit)` with
`ratePerSecond = duration > 0 ? totalDeposit / duration : 0`. -/
def flowedRaw (s : Stream) (now : ℚ) : ℚ :=
  let elapsedTime := max 0 (now - s.startTime)
  let ratePerSecond := if s.duration > 0 then s.totalDeposit / s.duration else 0
  min (elapsedTime * ratePerSecond) s.totalDeposit

/-- The un-rounded remaining balance: `max(0, totalDeposit - flowedAmount)`. -/
def remainingRaw (s : Stream) (now : ℚ) : ℚ :=
  max 0 (s.totalDeposit - flowedRaw s now)

/-- One step of the 1 Hz accounting refresh for a single stream:
stores the 6-decimal roundings of the flowed amount and the remaining
balance back into the stream snapshot. -/
def updateStreamBalance (now : ℚ) (s : Stream) : Stream :=
  { s with
    flowedAmount := round6 (flowedRaw s now)
    remainingBalance := round6 (remainingRaw s now) }

/-- The accounting refresh over the whole `activeStreams` list. -/
def updateStreamBalances (now : ℚ) (streams : List Stream) : List Stream :=
  streams.map (updateStreamBalance now)

/-! ## Order Valuation (implied-value recompute, VoltContext.jsx lines 146-166) -/

/-- `impliedValue = round6((remainingBalance * percentage) / 100 * priceRatio)`. -/
def impliedValueCalc (remainingBalance percentage priceRatio : ℚ) : ℚ :=
  round6 (remainingBalance * percentage / 100 * priceRatio)

/-- The per-order recompute: resolve the stream; if missing, implied
value defaults to `0`. -/
def recomputeOrder (streams : List Stream) (order : Order) : Order :=
  match streams.find? (fun s => s.id == order.streamId) with
  | none => { order with impliedValue := 0 }
  | some stream =>
      { order with
        impliedValue :=
          impliedValueCalc stream.remainingBalance order.percentage order.priceRatio }

/-- The recompute effect over the whole order book. -/
def recomputeImpliedValues (streams : List Stream) (orders : List Order) : List Order :=
  orders.map (recomputeOrder streams)

/-! ## Risk Scoring (`calculateStreamRisk`, src/unnamed/part_002) -/

/-- Letter grades `'A' | 'B' | 'C' | 'D'`. -/
inductive RiskLevel where
  | A
  | B
  | C
  | D
  deriving DecidableEq, Repr

/-- The `breakdown` object of a risk assessment.  In the degenerate
branch the JS object has no `totalRiskPoints` key, hence the `Option`. -/
structure RiskBreakdown where
  timeDecay : ℚ
  senderReputation : ℚ
  liquidityDepth : ℚ
  externalSignal : ℚ
  totalRiskPoints : Option ℚ
  deriving DecidableEq, Repr

/-- The value returned by `calculateStreamRisk`.  The score is an
integer (`Math.round` then clamp to `[0,100]`). -/
structure RiskAssessment where
  score : ℤ
  riskLevel : RiskLevel
  recommendedDiscount : ℚ
  breakdown : RiskBreakdown
  deriving DecidableEq, Repr

/-- One entry of a seller's transaction history; only `status` is read. -/
structure SellerTx where
  status : String
  deriving DecidableEq, Repr

/-- `mockArcTrustIDCheck`: the last character of the address,
lower-cased, must match `/[02468a-f]/` (false on the empty string). -/
def mockArcTrustIDCheck (address : String) : Bool :=
  match address.data.getLast? with
  | none => false
  | some c =>
      ['0', '2', '4', '6', '8', 'a', 'b', 'c', 'd', 'e', 'f'].contains c.toLower

/-- `calculateStreamRisk(stream, sellerHistory)`; the JS reads the wall
clock via `Math.floor(Date.now() / 1000)`, modelled as the explicit
parameter `now`.  The guard `!stream.startTime || !stream.duration ||
!stream.totalDeposit` treats the JS-falsy value `0` as missing. -/
def calculateStreamRisk (stream : Stream) (sellerHistory : List SellerTx) (now : ℚ) :
    RiskAssessment :=
  if stream.startTime = 0 ∨ stream.duration = 0 ∨ stream.totalDeposit = 0 then
    { score := 100
      riskLevel := .D
      recommendedDiscount := 1/5
      breakdown :=
        { timeDecay := 0, senderReputation := 0, liquidityDepth := 0,
          externalSignal := 0, totalRiskPoints := none } }
  else
    let elapsed := now - stream.startTime
    let progress := if stream.duration > 0 then elapsed / stream.duration else 0
    let timeDecayScore : ℚ :=
      if progress ≥ 4/5 then 30
      else if progress ≤ 1/10 then 0
      else (progress - 1/10) / (4/5 - 1/10) * 30
    let timeDecayContribution := timeDecayScore / 30 * 40
    let failedTransactions :=
      (sellerHistory.filter (fun tx => tx.status == "failed" || tx.status == "error")).length
    let senderReputationScore : ℚ :=
      if failedTransactions = 0 then 30
      else if failedTransactions = 1 then 15
      else -50
    let normalizedReputation := max 0 (min 30 senderReputationScore)
    let senderReputationContribution := normalizedReputation / 30 * 30
    let liquidityDepthScore : ℚ :=
      if stream.totalDeposit ≥ 10000 then 20
      else stream.totalDeposit / 10000 * 20
    let liquidityDepthContribution := liquidityDepthScore
    let externalSignalScore : ℚ := if mockArcTrustIDCheck stream.sender then 10 else 5
    let externalSignalContribution := externalSignalScore
    let totalRiskPoints :=
      (40 - timeDecayContribution) + (30 - senderReputationContribution) +
        (20 - liquidityDepthContribution) + (10 - externalSignalContribution)
    let riskScore : ℤ := max 0 (min 100 (jsRound totalRiskPoints))
    let levelDiscount : RiskLevel × ℚ :=
      if riskScore ≤ 20 then (.A, 1/50)
      else if riskScore ≤ 40 then (.B, 1/20)
      else if riskScore ≤ 70 then (.C, 1/10)
      else (.D, 1/5)
    { score := riskScore
      riskLevel := levelDiscount.1
      recommendedDiscount := levelDiscount.2
      breakdown :=
        { timeDecay := round2 timeDecayContribution
          senderReputation := round2 senderReputationContribution
          liquidityDepth := round2 liquidityDepthContribution
          externalSignal := round2 externalSignalContribution
          totalRiskPoints := some (round2 totalRiskPoints) } }

/-- The spec's grade-threshold table, written from the spec's words
(§4.2: `≤20 → A (2%)`, `≤40 → B (5%)`, `≤70 → C (10%)`, `>70 → D
(20%)`), to be compared with the grade the code assigns. -/
def spec_gradeOf (score : ℤ) : RiskLevel × ℚ :=
  if score ≤ 20 then (.A, 1/50)
  else if score ≤ 40 then (.B, 1/20)
  else if score ≤ 70 then (.C, 1/10)
  else (.D, 1/5)

/-! ## Bid Lifecycle (VoltContext.jsx lines 477-625)

The thrown `new Error(message)` values are mapped onto the spec's
error taxonomy (§7):

* `VoltError.orderNotFound`  — `'Order not found'`
* `VoltError.bidNotFound`    — `'Bid not found'`
* `VoltError.streamNotFound` — `'Stream not found'`
* `VoltError.notConnected`   — `'Please connect your wallet first'`
* `VoltError.unauthorized`   — `'You can only cancel your own bids'` /
  `'Only the seller can accept bids'` / `'Only the seller can reject bids'`
* `VoltError.invalidState`   — `'Only pending bids can be cancelled'` /
  `'... accepted'` / `'... rejected'`
-/

/-- Typed rendering of the error messages thrown by the bid lifecycle. -/
inductive VoltError where
  | orderNotFound
  | bidNotFound
  | streamNotFound
  | notConnected
  | unauthorized
  | invalidState
  deriving DecidableEq, Repr

/-- JS `String.prototype.toLowerCase()` on the ASCII addresses the app
uses: lower-case every character. -/
def jsToLower (s : String) : String := ⟨s.data.map Char.toLower⟩

/-- `x.toLowerCase() === user.address?.toLowerCase()`: false when the
address is `null`/`undefined` (the optional chaining yields `undefined`,
which compares unequal to any string). -/
def lowerEqOpt (s : String) (addr : Option String) : Bool :=
  match addr with
  | none => false
  | some a => jsToLower s == jsToLower a

/-- The object returned by a successful `acceptBid`
(`{ type: 'BID_ACCEPTED', bidId, orderId, streamId, purchasePrice }`). -/
structure AcceptResult where
  bidId : String
  orderId : String
  streamId : String
  purchasePrice : ℚ
  deriving DecidableEq, Repr

/-- `placeBid(orderId, amount, discount)`.  `Date.now()` and the random
bid id are modelled as the explicit parameters `now` and `freshId`. -/
def placeBid (st : VoltState) (orderId : String) (amount discount : ℚ)
    (now : ℤ) (freshId : String) : Except VoltError (VoltState × Bid) :=
  match st.orderBook.find? (fun o => o.id == orderId) with
  | none => .error .orderNotFound
  | some _ =>
      match st.user.address with
      | none => .error .notConnected
      | some addr =>
          let newBid : Bid :=
            { id := freshId
              orderId := orderId
              bidder := addr
              amount := amount
              discount := discount
              priceRatio := 1 - discount / 100
              status := .pending
              createdAt := now }
          .ok ({ st with bids := st.bids ++ [newBid] }, newBid)

/-- `cancelBid(bidId)`: bidder-only, pending-only. -/
def cancelBid (st : VoltState) (bidId : String) : Except VoltError VoltState :=
  match st.bids.find? (fun b => b.id == bidId) with
  | none => .error .bidNotFound
  | some bid =>
      if ¬ lowerEqOpt bid.bidder st.user.address then .error .unauthorized
      else if bid.status ≠ .pending then .error .invalidState
      else
        .ok { st with
              bids := st.bids.map (fun b =>
                if b.id == bidId then { b with status := .cancelled } else b) }

/-- `acceptBid(bidId)`: seller-only, pending-only; settles the trade.
`Date.now()` and the random trade id are the explicit parameters `now`
and `freshTradeId`.  Note the side effects of the live code: the bid is
marked accepted, the order is removed, the stream's receiver becomes
the bidder, the connected user's `balanceVUSDC` is debited by
`bid.amount`, and a trade entry is appended; `orderHistory` is not
touched. -/
def acceptBid (st : VoltState) (bidId : String) (now : ℤ) (freshTradeId : String) :
    Except VoltError (VoltState × AcceptResult) :=
  match st.bids.find? (fun b => b.id == bidId) with
  | none => .error .bidNotFound
  | some bid =>
      match st.orderBook.find? (fun o => o.id == bid.orderId) with
      | none => .error .orderNotFound
      | some order =>
          if ¬ lowerEqOpt order.seller st.user.address then .error .unauthorized
          else if bid.status ≠ .pending then .error .invalidState
          else
            match st.activeStreams.find? (fun s => s.id == order.streamId) with
            | none => .error .streamNotFound
            | some stream =>
                let tradeEntry : Trade :=
                  { id := freshTradeId
                    orderId := order.id
                    streamId := stream.id
                    seller := order.seller
                    buyer := bid.bidder
                    amount := stream.remainingBalance * order.percentage / 100
                    price := bid.amount
                    percentage := order.percentage
                    executedAt := now
                    viaBid := true
                    bidId := some bidId }
                .ok
                  ({ st with
                     bids := st.bids.map (fun b =>
                       if b.id == bidId then { b with status := .accepted } else b)
                     orderBook := st.orderBook.filter (fun o => o.id != order.id)
                     activeStreams := st.activeStreams.map (fun s =>
                       if s.id == order.streamId then { s with receiver := bid.bidder } else s)
                     user := { st.user with balanceVUSDC := st.user.balanceVUSDC - bid.amount }
                     tradeHistory := st.tradeHistory ++ [tradeEntry] },
                   { bidId := bidId
                     orderId := order.id
                     streamId := stream.id
                     purchasePrice := bid.amount })

/-- `rejectBid(bidId)`: seller-only, pending-only, no settlement. -/
def rejectBid (st : VoltState) (bidId : String) : Except VoltError VoltState :=
  match st.bids.find? (fun b => b.id == bidId) with
  | none => .error .bidNotFound
  | some bid =>
      match st.orderBook.find? (fun o => o.id == bid.orderId) with
      | none => .error .orderNotFound
      | some order =>
          if ¬ lowerEqOpt order.seller st.user.address then .error .unauthorized
          else if bid.status ≠ .pending then .error .invalidState
          else
            .ok { st with
                  bids := st.bids.map (fun b =>
                    if b.id == bidId then { b with status := .rejected } else b) }

/-! ## Matching Agent (`useSniperBot.js`)

`orderMatchesCriteria` (lines 80-131) assigns to `checks` in every
failing branch (`checks.riskScore = false;` etc.), but `checks` is
never declared anywhere in the module.  ES modules run in strict mode,
so that assignment throws `ReferenceError: checks is not defined`
before the branch's `console.log` / `return false` is reached.  The
function therefore either returns `true` or throws.  `scanOrderBook`
(lines 195-276) calls it inside `orderBook.forEach` with no
`try`/`catch`, so the exception propagates and aborts the scan. -/

/-- The sniper-bot preferences `{ maxRisk, minDiscount, maxDuration }`. -/
structure SniperPrefs where
  maxRisk : ℚ
  minDiscount : ℚ
  maxDuration : ℚ
  deriving DecidableEq, Repr

/-- The exception a scan can raise. -/
inductive JsError where
  /-- `ReferenceError: checks is not defined`. -/
  | checksNotDefined
  deriving DecidableEq, Repr

/-- `calculateDiscount(priceRatio) = (1 - priceRatio) * 100`. -/
def calculateDiscount (priceRatio : ℚ) : ℚ := (1 - priceRatio) * 100

/-- `getStreamDurationDays`: `0` when `duration` is falsy, otherwise
`duration / 86400`. -/
def getStreamDurationDays (stream : Stream) : ℚ :=
  if stream.duration = 0 then 0 else stream.duration / (60 * 60 * 24)

/-- `orderMatchesCriteria(order, stream)`: each failing predicate first
executes `checks.<field> = false`, which throws because `checks` is
undeclared; only an order passing every predicate reaches `return true`. -/
def orderMatchesCriteria (prefs : SniperPrefs) (user : VoltUser)
    (order : Order) (stream : Stream) : Except JsError Bool :=
  if order.riskScore > prefs.maxRisk then .error .checksNotDefined
  else if calculateDiscount order.priceRatio < prefs.minDiscount then .error .checksNotDefined
  else if getStreamDurationDays stream > prefs.maxDuration then .error .checksNotDefined
  else if user.balanceVUSDC < order.impliedValue then .error .checksNotDefined
  else if (match user.address with
           | some a => jsToLower order.seller == jsToLower a
           | none => false) then .error .checksNotDefined
  else .ok true

/-- One scan of the order book (`scanOrderBook`): orders are visited in
list order; an order whose stream is missing is skipped (a logged miss);
an uncaught exception from `orderMatchesCriteria` aborts the `forEach`,
leaving the remaining orders unevaluated.  Returns the ids of the
orders whose evaluation completed (trade execution itself is
asynchronous and internally caught in `executeTrade`, so it cannot
abort the scan and is not modelled further). -/
def scanOrderBook (prefs : SniperPrefs) (user : VoltUser)
    (streams : List Stream) : List Order → Except JsError (List String)
  | [] => .ok []
  | order :: rest =>
      match streams.find? (fun s => s.id == order.streamId) with
      | none =>
          match scanOrderBook prefs user streams rest with
          | .error e => .error e
          | .ok evaluated => .ok (order.id :: evaluated)
      | some stream =>
          match orderMatchesCriteria prefs user order stream with
          | .error e => .error e
          | .ok _ =>
              match scanOrderBook prefs user streams rest with
              | .error e => .error e
              | .ok evaluated => .ok (order.id :: evaluated)

/-! ## Concrete fixtures used by the witnesses and counterexamples -/

/-- The stream of the spec's end-to-end scenario (§8): `totalDeposit =
10000`, `duration = 864000`, `startTime = now - 432000` with `now =
1000000`. -/
def sC4 : Stream :=
  { id := "s1", sender := "0xaaa", receiver := "0xaaa", totalDeposit := 10000,
    startTime := 568000, duration := 864000, flowedAmount := 0, remainingBalance := 10000 }

/-- The order of the end-to-end scenario: `percentage = 50`,
`priceRatio = 0.9` on `sC4`. -/
def oC4 : Order :=
  { id := "o1", streamId := "s1", seller := "0xaaa", percentage := 50,
    priceRatio := 9/10, riskScore := 50, impliedValue := 0 }

/-- A stream whose `totalDeposit` is half of the 6-decimal rounding
unit (`0.0000005`); fully elapsed, its rounded `flowedAmount` is
`0.000001 > totalDeposit`. -/
def sC3 : Stream :=
  { id := "s1", sender := "0xaaa", receiver := "0xaaa", totalDeposit := 1/2000000,
    startTime := 0, duration := 10, flowedAmount := 0, remainingBalance := 1/2000000 }

/-- A stream whose rounded remaining balance is `0.00006`, used to
exhibit the rounding non-linearity of the implied-value recompute. -/
def sC7 : Stream :=
  { id := "s7", sender := "0xaaa", receiver := "0xaaa", totalDeposit := 3/50000,
    startTime := 100, duration := 1000, flowedAmount := 0, remainingBalance := 3/50000 }

/-- An order on `sC7` with `percentage = 0.5`, `priceRatio = 1`. -/
def oC7half : Order :=
  { id := "o7a", streamId := "s7", seller := "0xaaa", percentage := 1/2,
    priceRatio := 1, riskScore := 50, impliedValue := 0 }

/-- `oC7half` with its percentage doubled to `1`. -/
def oC7full : Order :=
  { id := "o7b", streamId := "s7", seller := "0xaaa", percentage := 1,
    priceRatio := 1, riskScore := 50, impliedValue := 0 }

/-- A well-formed stream for exercising the risk scorer. -/
def sC6 : Stream :=
  { id := "s6", sender := "0xq1", receiver := "0xq1", totalDeposit := 100,
    startTime := 50, duration := 1000, flowedAmount := 0, remainingBalance := 100 }

/-- A seller history with two failed transactions. -/
def histC6bad : List SellerTx := [{ status := "failed" }, { status := "error" }]

/-- A clean seller history. -/
def histC6good : List SellerTx := [{ status := "success" }]

/-- A stream that genuinely starts at unix second `0`: the risk
scorer's falsy-guard treats it as degenerate. -/
def sC9 : Stream :=
  { id := "s9", sender := "0xq2", receiver := "0xq2", totalDeposit := 500,
    startTime := 0, duration := 86400, flowedAmount := 0, remainingBalance := 500 }

/-- A listed stream whose receiver `0xseller` is the connected user. -/
def streamL : Stream :=
  { id := "s1", sender := "0xpayer", receiver := "0xseller", totalDeposit := 1000,
    startTime := 0, duration := 1000, flowedAmount := 500, remainingBalance := 500 }

/-- An active order on `streamL` sold by `0xseller`. -/
def orderL : Order :=
  { id := "o1", streamId := "s1", seller := "0xseller", percentage := 50,
    priceRatio := 9/10, riskScore := 30, impliedValue := 225 }

/-- A pending bid on `orderL` by `0xbidder`. -/
def bidL : Bid :=
  { id := "b1", orderId := "o1", bidder := "0xbidder", amount := 40, discount := 10,
    priceRatio := 9/10, status := .pending, createdAt := 0 }

/-- State in which `0xseller` is connected (balance `100`), `orderL` is
listed, and `bidL` is pending. -/
def stC1 : VoltState :=
  { user := { address := some "0xseller", balanceVUSDC := 100 },
    activeStreams := [streamL], orderBook := [orderL], bids := [bidL],
    orderHistory := [], tradeHistory := [] }

/-- The trade entry `acceptBid` appends from `stC1`. -/
def tradeC1 : Trade :=
  { id := "t1", orderId := "o1", streamId := "s1", seller := "0xseller",
    buyer := "0xbidder", amount := 250, price := 40, percentage := 50,
    executedAt := 1700000000, viaBid := true, bidId := some "b1" }

/-- The state `acceptBid stC1 "b1"` produces: bid accepted, order
removed, stream receiver reassigned, the connected (seller) balance
debited by `40`, trade appended — and `orderHistory` untouched. -/
def stC1after : VoltState :=
  { user := { address := some "0xseller", balanceVUSDC := 60 },
    activeStreams := [{ streamL with receiver := "0xbidder" }],
    orderBook := [],
    bids := [{ bidL with status := .accepted }],
    orderHistory := [], tradeHistory := [tradeC1] }

/-- A bid by `0xcarol` that was already cancelled (a terminal status). -/
def bC8 : Bid :=
  { id := "b2", orderId := "o1", bidder := "0xcarol", amount := 10, discount := 5,
    priceRatio := 19/20, status := .cancelled, createdAt := 0 }

/-- An order sold by `0xcarol`. -/
def orderC8 : Order :=
  { id := "o1", streamId := "s1", seller := "0xcarol", percentage := 25,
    priceRatio := 19/20, riskScore := 20, impliedValue := 50 }

/-- State in which `0xcarol` is connected and is both the bidder of the
already-cancelled `bC8` and the seller of `orderC8`. -/
def stC8 : VoltState :=
  { user := { address := some "0xcarol", balanceVUSDC := 500 },
    activeStreams := [], orderBook := [orderC8], bids := [bC8],
    orderHistory := [], tradeHistory := [] }

/-- The default Matching Agent policy `{ maxRisk = 40, minDiscount =
10, maxDuration = 30 }`. -/
def prefsC2 : SniperPrefs := { maxRisk := 40, minDiscount := 10, maxDuration := 30 }

/-- The connected buyer running the agent. -/
def userC2 : VoltUser := { address := some "0xbuyer", balanceVUSDC := 1000 }

/-- A one-day stream backing the scanned orders. -/
def streamC2 : Stream :=
  { id := "s1", sender := "0xpayer", receiver := "0xseller", totalDeposit := 200,
    startTime := 0, duration := 86400, flowedAmount := 100, remainingBalance := 100 }

/-- An order whose risk score `50` exceeds the policy's `maxRisk = 40`:
the first failing predicate executes `checks.riskScore = false`. -/
def orderC2bad : Order :=
  { id := "oBad", streamId := "s1", seller := "0xseller", percentage := 50,
    priceRatio := 4/5, riskScore := 50, impliedValue := 40 }

/-- An order that satisfies every policy predicate. -/
def orderC2good : Order :=
  { id := "oGood", streamId := "s1", seller := "0xseller", percentage := 50,
    priceRatio := 4/5, riskScore := 30, impliedValue := 40 }

/-! ## Helper lemmas about the rounding and the raw accounting quantities -/

theorem jsRound_mono {a b : ℚ} (h : a ≤ b) : jsRound a ≤ jsRound b :=
  Int.floor_le_floor (by linarith)

theorem jsRound_nonneg {a : ℚ} (h : 0 ≤ a) : 0 ≤ jsRound a :=
  Int.le_floor.mpr (by push_cast; linarith)

theorem jsRound_le (a : ℚ) : (jsRound a : ℚ) ≤ a + 1/2 :=
  Int.floor_le (a + 1/2)

theorem round6_mono {a b : ℚ} (h : a ≤ b) : round6 a ≤ round6 b := by
  unfold round6
  have := jsRound_mono (mul_le_mul_of_nonneg_right h (by norm_num : (0:ℚ) ≤ 1000000))
  have : ((jsRound (a * 1000000) : ℤ) : ℚ) ≤ ((jsRound (b * 1000000) : ℤ) : ℚ) := by
    exact_mod_cast this
  linarith

theorem round6_nonneg {a : ℚ} (h : 0 ≤ a) : 0 ≤ round6 a := by
  unfold round6
  have h1 : 0 ≤ jsRound (a * 1000000) := jsRound_nonneg (by positivity)
  have : (0:ℚ) ≤ ((jsRound (a * 1000000) : ℤ) : ℚ) := by exact_mod_cast h1
  linarith

theorem round6_le (a : ℚ) : round6 a ≤ a + 1/2000000 := by
  unfold round6
  have := jsRound_le (a * 1000000)
  linarith

theorem flowedRaw_nonneg {s : Stream} (h : 0 ≤ s.totalDeposit) (now : ℚ) :
    0 ≤ flowedRaw s now := by
  unfold flowedRaw
  refine le_min (mul_nonneg (le_max_left 0 _) ?_) h
  split
  · positivity
  · exact le_refl 0

theorem flowedRaw_le_deposit (s : Stream) (now : ℚ) :
    flowedRaw s now ≤ s.totalDeposit :=
  min_le_right _ _

theorem flowedRaw_mono {s : Stream} (h : 0 ≤ s.totalDeposit) {now now' : ℚ}
    (hle : now ≤ now') : flowedRaw s now ≤ flowedRaw s now' := by
  unfold flowedRaw
  have hrate : (0:ℚ) ≤ (if s.duration > 0 then s.totalDeposit / s.duration else 0) := by
    split
    · positivity
    · exact le_refl 0
  refine min_le_min (mul_le_mul_of_nonneg_right ?_ hrate) le_rfl
  exact max_le_max le_rfl (by linarith)

/-! ## Claim C3 — monotonicity and bounds of the accounting refresh -/

/-- **C3** (amended).  For every stream with non-negative
`totalDeposit`, the un-rounded flowed amount is monotone in `now` and
lies in `[0, totalDeposit]`, and the stored `flowedAmount` (its
6-decimal rounding) is monotone in `now`, non-negative and at most
`totalDeposit + 0.0000005`; `remainingBalance` is always `≥ 0`.  The
original bound `flowedAmount ≤ totalDeposit` fails for the stored
value: rounding can overshoot by up to half a rounding unit (see the
counterexample). -/
theorem C3_flowedAmount_monotone_bounded (s : Stream) (now now' : ℚ)
    (hd : 0 ≤ s.totalDeposit) (h : now ≤ now') :
    (updateStreamBalance now s).flowedAmount ≤ (updateStreamBalance now' s).flowedAmount ∧
    0 ≤ (updateStreamBalance now s).flowedAmount ∧
    (updateStreamBalance now s).flowedAmount ≤ s.totalDeposit + 1/2000000 ∧
    0 ≤ flowedRaw s now ∧
    flowedRaw s now ≤ s.totalDeposit ∧
    0 ≤ (updateStreamBalance now s).remainingBalance := by
  simp only [updateStreamBalance]
  refine ⟨round6_mono (flowedRaw_mono hd h), round6_nonneg (flowedRaw_nonneg hd now),
    ?_, flowedRaw_nonneg hd now, flowedRaw_le_deposit s now,
    round6_nonneg (le_max_left 0 _)⟩
  calc round6 (flowedRaw s now) ≤ flowedRaw s now + 1/2000000 := round6_le _
    _ ≤ s.totalDeposit + 1/2000000 := by
        have := flowedRaw_le_deposit s now; linarith

/-- **C3** (witness): the amended theorem applied to the concrete
stream `sC3` at `now = 3 ≤ 10`. -/
theorem C3_flowedAmount_monotone_bounded_witness :
    (0 ≤ sC3.totalDeposit ∧ (3:ℚ) ≤ 10) ∧
      (0 ≤ (updateStreamBalance 3 sC3).flowedAmount ∧
        0 ≤ (updateStreamBalance 3 sC3).remainingBalance) :=
  ⟨by norm_num [sC3],
   ⟨(C3_flowedAmount_monotone_bounded sC3 3 10 (by norm_num [sC3]) (by norm_num)).2.1,
    (C3_flowedAmount_monotone_bounded sC3 3 10 (by norm_num [sC3]) (by norm_num)).2.2.2.2.2⟩⟩

/-- **C3** (counterexample): the stream `sC3` has non-negative
`totalDeposit = 0.0000005`, yet once fully elapsed the stored
`flowedAmount` is `0.000001`, strictly greater than `totalDeposit` —
refuting `flowedAmount ∈ [0, totalDeposit]` for the value computed by
the accounting refresh. -/
theorem C3_counterexample :
    0 ≤ sC3.totalDeposit ∧
      sC3.totalDeposit < (updateStreamBalance 10 sC3).flowedAmount := by
  constructor
  · norm_num [sC3]
  · norm_num [updateStreamBalance, flowedRaw, remainingRaw, round6, jsRound, sC3]

/-! ## Claim C4 — the spec's end-to-end scenario -/

/-- **C4** (confirmed).  For the stream `totalDeposit = 10000`,
`duration = 864000`, `startTime = now - 432000` (with `now = 1000000`),
the accounting refresh yields `flowedAmount = 5000` and
`remainingBalance = 5000`, and the valuation recompute assigns the
order `percentage = 50`, `priceRatio = 0.9` an `impliedValue = 2250`. -/
theorem C4_end_to_end_scenario :
    (updateStreamBalance 1000000 sC4).flowedAmount = 5000 ∧
    (updateStreamBalance 1000000 sC4).remainingBalance = 5000 ∧
    (recomputeOrder (updateStreamBalances 1000000 [sC4]) oC4).impliedValue = 2250 := by
  refine ⟨?_, ?_, ?_⟩
  · norm_num [updateStreamBalance, flowedRaw, remainingRaw, round6, jsRound, sC4]
  · norm_num [updateStreamBalance, flowedRaw, remainingRaw, round6, jsRound, sC4]
  · norm_num [recomputeOrder, impliedValueCalc, updateStreamBalances, updateStreamBalance,
      flowedRaw, remainingRaw, round6, jsRound, sC4, oC4, List.find?]

/-! ## Claim C7 — linearity of the implied-value recompute -/

theorem jsRound_two_mul_le (x : ℚ) : jsRound (2 * x) ≤ 2 * jsRound x + 1 := by
  have h2 : x + 1/2 < jsRound x + 1 := Int.lt_floor_add_one (x + 1/2)
  have : jsRound (2 * x) < 2 * jsRound x + 2 := by
    apply Int.floor_lt.mpr
    push_cast
    linarith
  omega

theorem jsRound_two_mul_ge (x : ℚ) : 2 * jsRound x - 1 ≤ jsRound (2 * x) := by
  have h1 : (jsRound x : ℚ) ≤ x + 1/2 := jsRound_le x
  apply Int.le_floor.mpr
  push_cast
  linarith

/-- **C7** (amended).  For fixed `remainingBalance` and `priceRatio`,
doubling the percentage exactly doubles the *un-rounded* implied value
`remainingBalance * percentage / 100 * priceRatio`; the stored
`impliedValue` is its 6-decimal rounding, so doubling holds only up to
a difference of at most one rounding unit (`0.000001`).  Exactness for
the stored value fails (see the counterexample). -/
theorem C7_implied_value_doubling (remaining ratio p : ℚ) :
    remaining * (2 * p) / 100 * ratio = 2 * (remaining * p / 100 * ratio) ∧
    |impliedValueCalc remaining (2 * p) ratio -
        2 * impliedValueCalc remaining p ratio| ≤ 1/1000000 := by
  constructor
  · ring
  · unfold impliedValueCalc round6
    have hxx : remaining * (2 * p) / 100 * ratio * 1000000 =
        2 * (remaining * p / 100 * ratio * 1000000) := by ring
    rw [hxx]
    set x := remaining * p / 100 * ratio * 1000000 with hx
    have hu : jsRound (2 * x) ≤ 2 * jsRound x + 1 := jsRound_two_mul_le x
    have hl : 2 * jsRound x - 1 ≤ jsRound (2 * x) := jsRound_two_mul_ge x
    have hu' : ((jsRound (2 * x) : ℤ) : ℚ) ≤ 2 * ((jsRound x : ℤ) : ℚ) + 1 := by
      exact_mod_cast hu
    have hl' : 2 * ((jsRound x : ℤ) : ℚ) - 1 ≤ ((jsRound (2 * x) : ℤ) : ℚ) := by
      exact_mod_cast hl
    rw [abs_le]
    constructor <;> linarith

/-- **C7** (counterexample): on the stream `sC7` (remaining balance
`0.00006`) with `priceRatio = 1`, the order with `percentage = 1` gets
implied value `0.000001`, while the order with `percentage = 0.5` gets
`0`; doubling the percentage does not double the assigned value. -/
theorem C7_counterexample :
    (recomputeOrder [sC7] oC7full).impliedValue ≠
        2 * (recomputeOrder [sC7] oC7half).impliedValue ∧
    oC7full.percentage = 2 * oC7half.percentage ∧
    oC7full.priceRatio = oC7half.priceRatio ∧
    oC7full.streamId = oC7half.streamId ∧
    0 ≤ oC7half.percentage ∧ oC7full.percentage ≤ 100 := by
  refine ⟨?_, by norm_num [oC7half, oC7full], by norm_num [oC7half, oC7full],
    by norm_num [oC7half, oC7full], by norm_num [oC7half], by norm_num [oC7full]⟩
  norm_num [recomputeOrder, impliedValueCalc, round6, jsRound, sC7, oC7half, oC7full,
    List.find?]

/-! ## Claim C5 — risk score range and grade thresholds -/

/-- **C5** (confirmed).  For every stream, seller history and instant,
the risk score lies in `[0, 100]`, and the returned `riskLevel` and
`recommendedDiscount` are exactly the spec's deterministic grade
function of that score (inclusive upper thresholds `≤20 → A (0.02)`,
`≤40 → B (0.05)`, `≤70 → C (0.10)`, `>70 → D (0.20)`); in particular
no score maps to two grades. -/
theorem C5_risk_score_range_and_grade (stream : Stream) (hist : List SellerTx) (now : ℚ) :
    0 ≤ (calculateStreamRisk stream hist now).score ∧
    (calculateStreamRisk stream hist now).score ≤ 100 ∧
    ((calculateStreamRisk stream hist now).riskLevel,
      (calculateStreamRisk stream hist now).recommendedDiscount) =
      spec_gradeOf (calculateStreamRisk stream hist now).score := by
  unfold calculateStreamRisk
  by_cases hdeg : stream.startTime = 0 ∨ stream.duration = 0 ∨ stream.totalDeposit = 0
  · rw [if_pos hdeg]
    refine ⟨by norm_num, by norm_num, by norm_num [spec_gradeOf]⟩
  · rw [if_neg hdeg]
    dsimp only
    refine ⟨le_max_left 0 _, max_le (by norm_num) (min_le_left _ _), ?_⟩
    rw [Prod.mk.eta]
    rfl

/-! ## Claim C6 — repeat failures strictly worsen the score -/

theorem jsRound_add_thirty (t : ℚ) : jsRound (t + 30) = jsRound t + 30 := by
  unfold jsRound
  rw [show t + 30 + 1/2 = (t + 1/2) + ((30:ℤ):ℚ) by push_cast; ring]
  exact Int.floor_add_int _ _

theorem timeDecay_contrib_bounds (p : ℚ) :
    0 ≤ (if p ≥ 4/5 then (30:ℚ) else if p ≤ 1/10 then 0 else (p - 1/10)/(4/5 - 1/10)*30)/30*40 ∧
    (if p ≥ 4/5 then (30:ℚ) else if p ≤ 1/10 then 0 else (p - 1/10)/(4/5 - 1/10)*30)/30*40 ≤ 40 := by
  split_ifs with h1 h2
  · norm_num
  · norm_num
  · push_neg at h1 h2
    have heq : (p - 1/10)/(4/5 - 1/10)*30/30*40 = (p - 1/10) * (400/7) := by ring
    rw [heq]
    constructor <;> nlinarith

theorem liquidity_contrib_bounds {td : ℚ} (htd : 0 < td) :
    0 ≤ (if td ≥ 10000 then (20:ℚ) else td/10000*20) ∧
    (if td ≥ 10000 then (20:ℚ) else td/10000*20) ≤ 20 := by
  split_ifs with h
  · norm_num
  · push_neg at h
    constructor <;> nlinarith

/-- Key step of C6: the score formula is strictly increasing when the
reputation penalty for `≥ 2` failures replaces the clean-history
contribution (the residual clamp is strict because the total risk
points stay within `[0, 95]`). -/
theorem risk_rep_penalty_lt {tdc ldc esc : ℚ} {n0 n2 : ℕ}
    (htdc0 : 0 ≤ tdc) (htdc40 : tdc ≤ 40)
    (hldc0 : 0 ≤ ldc) (hldc20 : ldc ≤ 20)
    (hesc : esc = 5 ∨ esc = 10)
    (hn0 : n0 = 0) (hn2 : 2 ≤ n2) :
    0 ⊔ 100 ⊓ jsRound (40 - tdc + (30 - (0 ⊔ 30 ⊓ (if n0 = 0 then (30:ℚ) else if n0 = 1 then 15 else -50))/30*30) + (20 - ldc) + (10 - esc)) <
    0 ⊔ 100 ⊓ jsRound (40 - tdc + (30 - (0 ⊔ 30 ⊓ (if n2 = 0 then (30:ℚ) else if n2 = 1 then 15 else -50))/30*30) + (20 - ldc) + (10 - esc)) := by
  rw [hn0, if_pos rfl, if_neg (by omega), if_neg (by omega)]
  have e0 : ((0:ℚ) ⊔ 30 ⊓ 30)/30*30 = 30 := by norm_num
  have e2 : ((0:ℚ) ⊔ 30 ⊓ (-50))/30*30 = 0 := by norm_num
  rw [e0, e2]
  set t := 40 - tdc + (30 - 30) + (20 - ldc) + (10 - esc) with ht
  have h2eq : 40 - tdc + (30 - 0) + (20 - ldc) + (10 - esc) = t + 30 := by rw [ht]; ring
  rw [h2eq]
  have hesc' : 0 ≤ 10 - esc ∧ 10 - esc ≤ 5 := by
    rcases hesc with h | h <;> rw [h] <;> norm_num
  have ht0 : 0 ≤ t := by rw [ht]; linarith [hesc'.1]
  have ht65 : t ≤ 65 := by rw [ht]; linarith [hesc'.2]
  have hr0 : 0 ≤ jsRound t := jsRound_nonneg ht0
  have hr65 : jsRound t ≤ 65 := by
    have h1 : (jsRound t : ℚ) ≤ t + 1/2 := jsRound_le t
    have h2 : (jsRound t : ℚ) < 66 := by linarith
    have h3 : jsRound t < 66 := by exact_mod_cast h2
    omega
  rw [jsRound_add_thirty]
  rw [min_eq_right (by omega : jsRound t ≤ 100), max_eq_right hr0]
  rw [min_eq_right (by omega : jsRound t + 30 ≤ 100), max_eq_right (by omega)]
  omega

/-- **C6** (confirmed).  For every stream with non-zero `startTime` and
`duration` and positive `totalDeposit`, and any fixed evaluation
instant, a seller history with `≥ 2` failed/error transactions yields a
strictly higher risk score than a history with `0` such failures, all
other inputs equal. -/
theorem C6_failed_history_scores_worse (s : Stream) (now : ℚ) (hist0 hist2 : List SellerTx)
    (hst : s.startTime ≠ 0) (hdur : s.duration ≠ 0) (htd : 0 < s.totalDeposit)
    (h0 : (hist0.filter (fun tx => tx.status == "failed" || tx.status == "error")).length = 0)
    (h2 : 2 ≤ (hist2.filter (fun tx => tx.status == "failed" || tx.status == "error")).length) :
    (calculateStreamRisk s hist0 now).score < (calculateStreamRisk s hist2 now).score := by
  have hdeg : ¬(s.startTime = 0 ∨ s.duration = 0 ∨ s.totalDeposit = 0) := by
    push_neg
    exact ⟨hst, hdur, ne_of_gt htd⟩
  unfold calculateStreamRisk
  rw [if_neg hdeg, if_neg hdeg]
  dsimp only
  refine risk_rep_penalty_lt
    (timeDecay_contrib_bounds _).1 (timeDecay_contrib_bounds _).2
    (liquidity_contrib_bounds htd).1 (liquidity_contrib_bounds htd).2
    ?_ h0 h2
  split_ifs with h
  · exact Or.inr rfl
  · exact Or.inl rfl

/-- **C6** (witness): the theorem applied to the concrete stream `sC6`
with the clean history `histC6good` against `histC6bad`, which contains
one `'failed'` and one `'error'` transaction. -/
theorem C6_failed_history_scores_worse_witness :
    (sC6.startTime ≠ 0 ∧ sC6.duration ≠ 0 ∧ 0 < sC6.totalDeposit ∧
      (histC6good.filter (fun tx => tx.status == "failed" || tx.status == "error")).length = 0 ∧
      2 ≤ (histC6bad.filter (fun tx => tx.status == "failed" || tx.status == "error")).length) ∧
    (calculateStreamRisk sC6 histC6good 100).score <
      (calculateStreamRisk sC6 histC6bad 100).score :=
  ⟨⟨by norm_num [sC6], by norm_num [sC6], by norm_num [sC6], by rfl, by rfl⟩,
   C6_failed_history_scores_worse sC6 100 histC6good histC6bad
     (by norm_num [sC6]) (by norm_num [sC6]) (by norm_num [sC6]) (by rfl) (by rfl)⟩

/-! ## Claim C9 — degenerate streams score as maximum risk -/

/-- **C9** (confirmed).  For every stream whose `startTime`, `duration`
or `totalDeposit` equals `0` (the JS falsy-guard `!stream.startTime ||
!stream.duration || !stream.totalDeposit` treats `0` like a missing
field), `calculateStreamRisk` returns exactly score `100`, level `D`,
recommended discount `0.20` and an all-zero breakdown, for any seller
history and instant, without throwing. -/
theorem C9_degenerate_max_risk (stream : Stream) (hist : List SellerTx) (now : ℚ)
    (h : stream.startTime = 0 ∨ stream.duration = 0 ∨ stream.totalDeposit = 0) :
    calculateStreamRisk stream hist now =
      { score := 100, riskLevel := .D, recommendedDiscount := 1/5,
        breakdown := { timeDecay := 0, senderReputation := 0, liquidityDepth := 0,
                       externalSignal := 0, totalRiskPoints := none } } := by
  unfold calculateStreamRisk
  rw [if_pos h]

/-- **C9** (witness): the stream `sC9` genuinely starts at unix second
`0` and is scored as maximum risk. -/
theorem C9_degenerate_max_risk_witness :
    (sC9.startTime = 0 ∨ sC9.duration = 0 ∨ sC9.totalDeposit = 0) ∧
    calculateStreamRisk sC9 histC6good 1700000000 =
      { score := 100, riskLevel := .D, recommendedDiscount := 1/5,
        breakdown := { timeDecay := 0, senderReputation := 0, liquidityDepth := 0,
                       externalSignal := 0, totalRiskPoints := none } } :=
  ⟨Or.inl rfl, C9_degenerate_max_risk sC9 histC6good 1700000000 (Or.inl rfl)⟩

/-! ## Claim C1 — side effects of `acceptBid` -/

/-- **C1** (amended).  For every pending bid whose order and stream
resolve, `acceptBid` called by the order's seller performs, in one
atomic step of the embedding: mark the bid accepted; remove the order
from the order book; reassign the stream's receiver to the bidder;
debit the *connected caller's* (i.e. the seller's) vUSDC balance by
`bid.amount`; and append a Trade record referencing the bid.  Contrary
to the claim, no order-history entry is appended (`orderHistory` is
unchanged in the result), and the debited balance is the caller's, not
the bidder's. -/
theorem C1_acceptBid_effects (st : VoltState) (bidId : String) (now : ℤ) (tid : String)
    (b : Bid) (o : Order) (s : Stream)
    (hb : st.bids.find? (fun x => x.id == bidId) = some b)
    (ho : st.orderBook.find? (fun x => x.id == b.orderId) = some o)
    (hauth : lowerEqOpt o.seller st.user.address = true)
    (hpend : b.status = .pending)
    (hs : st.activeStreams.find? (fun x => x.id == o.streamId) = some s) :
    acceptBid st bidId now tid =
      .ok ({ st with
             bids := st.bids.map (fun x =>
               if x.id == bidId then { x with status := .accepted } else x),
             orderBook := st.orderBook.filter (fun x => x.id != o.id),
             activeStreams := st.activeStreams.map (fun x =>
               if x.id == o.streamId then { x with receiver := b.bidder } else x),
             user := { st.user with balanceVUSDC := st.user.balanceVUSDC - b.amount },
             tradeHistory := st.tradeHistory ++
               [{ id := tid, orderId := o.id, streamId := s.id,
                  seller := o.seller, buyer := b.bidder,
                  amount := s.remainingBalance * o.percentage / 100, price := b.amount,
                  percentage := o.percentage, executedAt := now, viaBid := true,
                  bidId := some bidId }] },
           { bidId := bidId, orderId := o.id, streamId := s.id, purchasePrice := b.amount }) := by
  unfold acceptBid
  rw [hb]
  dsimp only
  rw [ho]
  dsimp only
  rw [if_neg (by simp [hauth]), if_neg (by simp [hpend])]
  rw [hs]

/-- **C1** (witness): the amended theorem applied to the concrete state
`stC1`; the hypotheses hold and `acceptBid` settles the trade for
`bidL`. -/
theorem C1_acceptBid_effects_witness :
    (stC1.bids.find? (fun x => x.id == "b1") = some bidL ∧
     stC1.orderBook.find? (fun x => x.id == bidL.orderId) = some orderL ∧
     lowerEqOpt orderL.seller stC1.user.address = true ∧
     bidL.status = .pending ∧
     stC1.activeStreams.find? (fun x => x.id == orderL.streamId) = some streamL) ∧
    acceptBid stC1 "b1" 1700000000 "t1" =
      .ok ({ stC1 with
             bids := stC1.bids.map (fun x =>
               if x.id == "b1" then { x with status := .accepted } else x),
             orderBook := stC1.orderBook.filter (fun x => x.id != orderL.id),
             activeStreams := stC1.activeStreams.map (fun x =>
               if x.id == orderL.streamId then { x with receiver := bidL.bidder } else x),
             user := { stC1.user with balanceVUSDC := stC1.user.balanceVUSDC - bidL.amount },
             tradeHistory := stC1.tradeHistory ++
               [{ id := "t1", orderId := orderL.id, streamId := streamL.id,
                  seller := orderL.seller, buyer := bidL.bidder,
                  amount := streamL.remainingBalance * orderL.percentage / 100,
                  price := bidL.amount, percentage := orderL.percentage,
                  executedAt := 1700000000, viaBid := true, bidId := some "b1" }] },
           { bidId := "b1", orderId := orderL.id, streamId := streamL.id,
             purchasePrice := bidL.amount }) :=
  ⟨⟨rfl, rfl, by decide, rfl, rfl⟩,
   C1_acceptBid_effects stC1 "b1" 1700000000 "t1" bidL orderL streamL
     rfl rfl (by decide) rfl rfl⟩

/-- **C1** (counterexample): from the concrete state `stC1` —
connected user (and seller) `0xseller` with balance `100`, pending bid
of `40` by `0xbidder` — `acceptBid` succeeds, yet the order-history
list is unchanged (no entry marked `sold` is appended), and the balance
that is debited by `40` is the seller's, while the bidder is a
different address.  This refutes the claim as stated. -/
theorem C1_counterexample :
    acceptBid stC1 "b1" 1700000000 "t1" =
      .ok (stC1after, { bidId := "b1", orderId := "o1", streamId := "s1",
                        purchasePrice := 40 }) ∧
    stC1after.orderHistory = stC1.orderHistory ∧
    stC1.bids = [bidL] ∧
    bidL.bidder = "0xbidder" ∧
    stC1.user.address = some "0xseller" ∧
    "0xbidder" ≠ "0xseller" ∧
    stC1after.user.balanceVUSDC = stC1.user.balanceVUSDC - bidL.amount := by
  refine ⟨?_, rfl, rfl, rfl, rfl, by decide, ?_⟩
  · simp [acceptBid, stC1, bidL, orderL, streamL, stC1after, tradeC1, lowerEqOpt,
      jsToLower, List.find?]
    norm_num
  · norm_num [stC1after, stC1, bidL]

/-! ## Claim C2 — the Matching Agent scan aborts on a failing predicate -/

/-- **C2** (code bug).  In `orderMatchesCriteria` every failing
predicate branch first executes `checks.<field> = false`, but `checks`
is never declared, so the branch throws `ReferenceError: checks is not
defined`; `scanOrderBook` calls the function inside `forEach` without
a `try`/`catch`, so the exception propagates and the remaining orders
are never evaluated.  Concretely: evaluating `orderC2bad` (risk `50 >
maxRisk 40`) throws, and a scan over `[orderC2bad, orderC2good]`
aborts with that error instead of evaluating `orderC2good` — which a
scan over `[orderC2good]` alone shows to be evaluable and matching. -/
theorem C2_scan_aborts_on_failing_predicate :
    orderMatchesCriteria prefsC2 userC2 orderC2bad streamC2 =
      .error .checksNotDefined ∧
    scanOrderBook prefsC2 userC2 [streamC2] [orderC2bad, orderC2good] =
      .error .checksNotDefined ∧
    scanOrderBook prefsC2 userC2 [streamC2] [orderC2good] = .ok ["oGood"] := by
  refine ⟨?_, ?_, ?_⟩ <;>
    · simp [scanOrderBook, orderMatchesCriteria, calculateDiscount, getStreamDurationDays,
        prefsC2, userC2, streamC2, orderC2bad, orderC2good, jsToLower, List.find?]
      norm_num

/-! ## Claim C10 — `placeBid` performs no range validation -/

/-- **C10** (confirmed).  For every order id present in the order book
and every connected caller, `placeBid` succeeds for arbitrary rational
`amount` and `discount` (no `ValidationError` is possible), appending a
bid with status `pending` and `priceRatio = 1 - discount/100`, which is
negative whenever `discount > 100`. -/
theorem C10_placeBid_no_range_validation (st : VoltState) (orderId : String)
    (amount discount : ℚ) (now : ℤ) (freshId : String) (o : Order) (a : String)
    (ho : st.orderBook.find? (fun x => x.id == orderId) = some o)
    (ha : st.user.address = some a) :
    placeBid st orderId amount discount now freshId =
      .ok ({ st with bids := st.bids ++
               [{ id := freshId, orderId := orderId, bidder := a,
                  amount := amount, discount := discount,
                  priceRatio := 1 - discount/100, status := .pending,
                  createdAt := now }] },
           { id := freshId, orderId := orderId, bidder := a, amount := amount,
             discount := discount, priceRatio := 1 - discount/100,
             status := .pending, createdAt := now }) ∧
    (100 < discount → 1 - discount/100 < 0) := by
  constructor
  · unfold placeBid
    rw [ho]
    dsimp only
    rw [ha]
  · intro h
    linarith

/-- **C10** (witness): placing a bid on `stC1`'s order `o1` with
`discount = 150` succeeds and yields `priceRatio = -0.5 < 0`. -/
theorem C10_placeBid_no_range_validation_witness :
    (stC1.orderBook.find? (fun x => x.id == "o1") = some orderL ∧
     stC1.user.address = some "0xseller") ∧
    placeBid stC1 "o1" 123 150 1700000000 "b9" =
      .ok ({ stC1 with bids := stC1.bids ++
               [{ id := "b9", orderId := "o1", bidder := "0xseller",
                  amount := 123, discount := 150, priceRatio := 1 - 150/100,
                  status := .pending, createdAt := 1700000000 }] },
           { id := "b9", orderId := "o1", bidder := "0xseller", amount := 123,
             discount := 150, priceRatio := 1 - 150/100, status := .pending,
             createdAt := 1700000000 }) ∧
    (1 : ℚ) - 150/100 < 0 :=
  ⟨⟨rfl, rfl⟩,
   (C10_placeBid_no_range_validation stC1 "o1" 123 150 1700000000 "b9" orderL
      "0xseller" rfl rfl).1,
   (C10_placeBid_no_range_validation stC1 "o1" 123 150 1700000000 "b9" orderL
      "0xseller" rfl rfl).2 (by norm_num)⟩

/-! ## Claim C8 — bid lifecycle error behaviour

Helper lemmas for the error paths, the success inversions, and the
preservation of terminal statuses. -/

theorem cancelBid_invalidState_of (st : VoltState) (bidId : String) (b : Bid)
    (hb : st.bids.find? (fun x => x.id == bidId) = some b)
    (hauth : lowerEqOpt b.bidder st.user.address = true)
    (hst : b.status ≠ .pending) :
    cancelBid st bidId = .error .invalidState := by
  unfold cancelBid
  rw [hb]
  dsimp only
  rw [if_neg (by simp [hauth]), if_pos hst]

theorem rejectBid_invalidState_of (st : VoltState) (bidId : String) (b : Bid) (o : Order)
    (hb : st.bids.find? (fun x => x.id == bidId) = some b)
    (ho : st.orderBook.find? (fun x => x.id == b.orderId) = some o)
    (hauth : lowerEqOpt o.seller st.user.address = true)
    (hst : b.status ≠ .pending) :
    rejectBid st bidId = .error .invalidState := by
  unfold rejectBid
  rw [hb]
  dsimp only
  rw [ho]
  dsimp only
  rw [if_neg (by simp [hauth]), if_pos hst]

theorem acceptBid_invalidState_of (st : VoltState) (bidId : String) (now : ℤ) (tid : String)
    (b : Bid) (o : Order)
    (hb : st.bids.find? (fun x => x.id == bidId) = some b)
    (ho : st.orderBook.find? (fun x => x.id == b.orderId) = some o)
    (hauth : lowerEqOpt o.seller st.user.address = true)
    (hst : b.status ≠ .pending) :
    acceptBid st bidId now tid = .error .invalidState := by
  unfold acceptBid
  rw [hb]
  dsimp only
  rw [ho]
  dsimp only
  rw [if_neg (by simp [hauth]), if_pos hst]

theorem rejectBid_unauthorized_of (st : VoltState) (bidId : String) (b : Bid) (o : Order)
    (hb : st.bids.find? (fun x => x.id == bidId) = some b)
    (ho : st.orderBook.find? (fun x => x.id == b.orderId) = some o)
    (hauth : lowerEqOpt o.seller st.user.address = false) :
    rejectBid st bidId = .error .unauthorized := by
  unfold rejectBid
  rw [hb]
  dsimp only
  rw [ho]
  dsimp only
  rw [if_pos (by simp [hauth])]

theorem acceptBid_unauthorized_of (st : VoltState) (bidId : String) (now : ℤ) (tid : String)
    (b : Bid) (o : Order)
    (hb : st.bids.find? (fun x => x.id == bidId) = some b)
    (ho : st.orderBook.find? (fun x => x.id == b.orderId) = some o)
    (hauth : lowerEqOpt o.seller st.user.address = false) :
    acceptBid st bidId now tid = .error .unauthorized := by
  unfold acceptBid
  rw [hb]
  dsimp only
  rw [ho]
  dsimp only
  rw [if_pos (by simp [hauth])]

theorem cancelBid_ok_inv (st : VoltState) (bidId : String) (b : Bid)
    (hb : st.bids.find? (fun x => x.id == bidId) = some b) :
    ∀ st1, cancelBid st bidId = .ok st1 →
      b.status = .pending ∧
      st1.bids = st.bids.map (fun y =>
        if y.id == bidId then { y with status := .cancelled } else y) := by
  intro st1 h
  unfold cancelBid at h
  rw [hb] at h
  dsimp only at h
  by_cases hau : lowerEqOpt b.bidder st.user.address = true
  · rw [if_neg (by simp [hau])] at h
    by_cases hp : b.status = .pending
    · rw [if_neg (by simp [hp])] at h
      rw [Except.ok.injEq] at h
      subst h
      exact ⟨hp, rfl⟩
    · rw [if_pos hp] at h
      simp at h
  · rw [if_pos (by simp [hau])] at h
    simp at h

theorem rejectBid_ok_inv (st : VoltState) (bidId : String) (b : Bid)
    (hb : st.bids.find? (fun x => x.id == bidId) = some b) :
    ∀ st1, rejectBid st bidId = .ok st1 →
      b.status = .pending ∧
      st1.bids = st.bids.map (fun y =>
        if y.id == bidId then { y with status := .rejected } else y) := by
  intro st1 h
  unfold rejectBid at h
  rw [hb] at h
  dsimp only at h
  cases hfo : st.orderBook.find? (fun x => x.id == b.orderId) with
  | none => rw [hfo] at h; simp at h
  | some o =>
    rw [hfo] at h
    dsimp only at h
    by_cases hau : lowerEqOpt o.seller st.user.address = true
    · rw [if_neg (by simp [hau])] at h
      by_cases hp : b.status = .pending
      · rw [if_neg (by simp [hp])] at h
        rw [Except.ok.injEq] at h
        subst h
        exact ⟨hp, rfl⟩
      · rw [if_pos hp] at h
        simp at h
    · rw [if_pos (by simp [hau])] at h
      simp at h

theorem acceptBid_ok_inv (st : VoltState) (bidId : String) (now : ℤ) (tid : String) (b : Bid)
    (hb : st.bids.find? (fun x => x.id == bidId) = some b) :
    ∀ st1 r, acceptBid st bidId now tid = .ok (st1, r) →
      b.status = .pending ∧
      st1.bids = st.bids.map (fun y =>
        if y.id == bidId then { y with status := .accepted } else y) ∧
      ∃ o, st.orderBook.find? (fun x => x.id == b.orderId) = some o ∧
        st1.orderBook = st.orderBook.filter (fun x => x.id != o.id) := by
  intro st1 r h
  unfold acceptBid at h
  rw [hb] at h
  dsimp only at h
  cases hfo : st.orderBook.find? (fun x => x.id == b.orderId) with
  | none => rw [hfo] at h; simp at h
  | some o =>
    rw [hfo] at h
    dsimp only at h
    by_cases hau : lowerEqOpt o.seller st.user.address = true
    · rw [if_neg (by simp [hau])] at h
      by_cases hp : b.status = .pending
      · rw [if_neg (by simp [hp])] at h
        cases hfs : st.activeStreams.find? (fun x => x.id == o.streamId) with
        | none => rw [hfs] at h; simp at h
        | some s =>
          rw [hfs] at h
          dsimp only at h
          rw [Except.ok.injEq, Prod.mk.injEq] at h
          obtain ⟨h1, h2⟩ := h
          rw [← h1]
          exact ⟨hp, rfl, o, rfl, rfl⟩
      · rw [if_pos hp] at h
        simp at h
    · rw [if_pos (by simp [hau])] at h
      simp at h

theorem find?_bids_map_update (bids : List Bid) (bidId : String) (newS : BidStatus) :
    (bids.map (fun y => if y.id == bidId then { y with status := newS } else y)).find?
        (fun x => x.id == bidId) =
      (bids.find? (fun x => x.id == bidId)).map
        (fun y => if y.id == bidId then { y with status := newS } else y) := by
  have hpf : ((fun x : Bid => x.id == bidId) ∘
      (fun y : Bid => if y.id == bidId then { y with status := newS } else y)) =
      (fun x : Bid => x.id == bidId) := by
    funext y
    by_cases hy : (y.id == bidId) = true
    · simp [Function.comp, hy]
    · simp [Function.comp, hy]
  rw [List.find?_map, hpf]

/-- After a successful `acceptBid`, the order was removed from the
book, so a second `acceptBid` on the same bid fails with
`'Order not found'`, not with `InvalidState`. -/
theorem acceptBid_twice_orderNotFound (st : VoltState) (bidId : String) (now now' : ℤ)
    (tid tid' : String) (b : Bid)
    (hb : st.bids.find? (fun x => x.id == bidId) = some b) :
    ∀ st1 r, acceptBid st bidId now tid = .ok (st1, r) →
      acceptBid st1 bidId now' tid' = .error .orderNotFound := by
  intro st1 r h
  obtain ⟨hp, hbids, o, hfo, hob⟩ := acceptBid_ok_inv st bidId now tid b hb st1 r h
  have hbid := List.find?_some hb
  have hfind1 : st1.bids.find? (fun x => x.id == bidId) =
      some { b with status := .accepted } := by
    rw [hbids, find?_bids_map_update, hb]
    simp [beq_iff_eq.mp hbid]
  have hoid : o.id = b.orderId := by
    have h1 := List.find?_some hfo
    exact beq_iff_eq.mp h1
  have hfind2 : st1.orderBook.find? (fun x => x.id == b.orderId) = none := by
    rw [hob, List.find?_eq_none]
    intro x hx hpx
    rw [List.mem_filter] at hx
    have hxne : x.id ≠ o.id := by
      have := hx.2
      simpa using this
    have hxeq : x.id = b.orderId := beq_iff_eq.mp hpx
    exact hxne (hxeq.trans hoid.symm)
  unfold acceptBid
  rw [hfind1]
  dsimp only
  rw [hfind2]

/-- A bid whose status is terminal is untouched by the status-update
map of a successful transition (the updated bid is the pending one;
bid ids are assumed unique, as generated). -/
theorem nonpending_mem_map_update (bids : List Bid) (bidId : String) (newS : BidStatus)
    (hnd : (bids.map (fun x => x.id)).Nodup)
    (b : Bid) (hfind : bids.find? (fun x => x.id == bidId) = some b)
    (hpend : b.status = .pending)
    (x : Bid) (hx : x ∈ bids) (hxs : x.status ≠ .pending) :
    x ∈ bids.map (fun y => if y.id == bidId then { y with status := newS } else y) := by
  have hbmem : b ∈ bids := List.mem_of_find?_eq_some hfind
  have hbid := List.find?_some hfind
  have hxid : ¬ ((x.id == bidId) = true) := by
    intro hc
    have hxeq : x.id = bidId := beq_iff_eq.mp hc
    have hbeq : b.id = bidId := beq_iff_eq.mp hbid
    have hxb : x = b :=
      List.inj_on_of_nodup_map hnd hx hbmem (by rw [hxeq, hbeq])
    rw [hxb] at hxs
    exact hxs hpend
  have heq : (fun y => if y.id == bidId then { y with status := newS } else y) x = x := by
    simp [hxid]
  exact heq ▸ List.mem_map_of_mem _ hx

/-- **C8** (amended).  For every bid that resolves: `cancel` by the
bidder, and `reject`/`accept` by the seller *while the referenced order
still resolves*, fail with `InvalidState` on a non-pending bid;
`reject`/`accept` fail with `Unauthorized` when the caller is not the
seller; after a successful `accept`, a second `accept` of the same bid
fails with `NotFound` (`'Order not found'`) — not `InvalidState` —
because the order was removed from the book; and no operation ever
changes a terminal bid status (non-pending bids survive unchanged in
every successful transition, and failed transitions leave the state
untouched). -/
theorem C8_bid_transitions (st : VoltState) (bidId : String) (now : ℤ) (tid : String)
    (b : Bid) (hb : st.bids.find? (fun x => x.id == bidId) = some b) :
    (lowerEqOpt b.bidder st.user.address = true → b.status ≠ .pending →
      cancelBid st bidId = .error .invalidState) ∧
    (∀ o, st.orderBook.find? (fun x => x.id == b.orderId) = some o →
      lowerEqOpt o.seller st.user.address = true → b.status ≠ .pending →
      rejectBid st bidId = .error .invalidState ∧
      acceptBid st bidId now tid = .error .invalidState) ∧
    (∀ o, st.orderBook.find? (fun x => x.id == b.orderId) = some o →
      lowerEqOpt o.seller st.user.address = false →
      rejectBid st bidId = .error .unauthorized ∧
      acceptBid st bidId now tid = .error .unauthorized) ∧
    (∀ st1 r, acceptBid st bidId now tid = .ok (st1, r) →
      ∀ now' tid', acceptBid st1 bidId now' tid' = .error .orderNotFound) ∧
    ((st.bids.map (fun x => x.id)).Nodup →
      ∀ x ∈ st.bids, x.status ≠ .pending →
        (∀ st1, cancelBid st bidId = .ok st1 → x ∈ st1.bids) ∧
        (∀ st1 r, acceptBid st bidId now tid = .ok (st1, r) → x ∈ st1.bids) ∧
        (∀ st1, rejectBid st bidId = .ok st1 → x ∈ st1.bids)) := by
  refine ⟨fun hauth hst => cancelBid_invalidState_of st bidId b hb hauth hst,
    fun o ho hauth hst =>
      ⟨rejectBid_invalidState_of st bidId b o hb ho hauth hst,
       acceptBid_invalidState_of st bidId now tid b o hb ho hauth hst⟩,
    fun o ho hauth =>
      ⟨rejectBid_unauthorized_of st bidId b o hb ho hauth,
       acceptBid_unauthorized_of st bidId now tid b o hb ho hauth⟩,
    fun st1 r h now' tid' =>
      acceptBid_twice_orderNotFound st bidId now now' tid tid' b hb st1 r h,
    ?_⟩
  intro hnd x hx hxs
  refine ⟨?_, ?_, ?_⟩
  · intro st1 hok
    obtain ⟨hp, hbids⟩ := cancelBid_ok_inv st bidId b hb st1 hok
    rw [hbids]
    exact nonpending_mem_map_update st.bids bidId .cancelled hnd b hb hp x hx hxs
  · intro st1 r hok
    obtain ⟨hp, hbids, -⟩ := acceptBid_ok_inv st bidId now tid b hb st1 r hok
    rw [hbids]
    exact nonpending_mem_map_update st.bids bidId .accepted hnd b hb hp x hx hxs
  · intro st1 hok
    obtain ⟨hp, hbids⟩ := rejectBid_ok_inv st bidId b hb st1 hok
    rw [hbids]
    exact nonpending_mem_map_update st.bids bidId .rejected hnd b hb hp x hx hxs

/-- **C8** (witness): on the concrete state `stC8`, whose connected
user `0xcarol` is both the bidder of the already-cancelled bid `b2` and
the seller of its order, all three operations fail with
`InvalidState`, derived from the amended theorem. -/
theorem C8_bid_transitions_witness :
    stC8.bids.find? (fun x => x.id == "b2") = some bC8 ∧
    cancelBid stC8 "b2" = .error .invalidState ∧
    rejectBid stC8 "b2" = .error .invalidState ∧
    acceptBid stC8 "b2" 0 "t" = .error .invalidState :=
  ⟨rfl,
   (C8_bid_transitions stC8 "b2" 0 "t" bC8 rfl).1 (by decide) (by decide),
   ((C8_bid_transitions stC8 "b2" 0 "t" bC8 rfl).2.1 orderC8 rfl (by decide) (by decide)).1,
   ((C8_bid_transitions stC8 "b2" 0 "t" bC8 rfl).2.1 orderC8 rfl (by decide) (by decide)).2⟩

/-- **C8** (counterexample): accepting the pending bid `b1` of `stC1`
succeeds; accepting it a second time fails with `'Order not found'`
(`orderNotFound`), not with `InvalidState` as the claim states — the
first accept removed the order from the book while the bid's status is
already `accepted`. -/
theorem C8_counterexample :
    acceptBid stC1 "b1" 1700000000 "t1" =
      .ok (stC1after, { bidId := "b1", orderId := "o1", streamId := "s1",
                        purchasePrice := 40 }) ∧
    (stC1after.bids.find? (fun x => x.id == "b1")).map (fun x => x.status) =
      some .accepted ∧
    acceptBid stC1after "b1" 1700000001 "t2" = .error .orderNotFound ∧
    VoltError.orderNotFound ≠ VoltError.invalidState := by
  refine ⟨?_, rfl, rfl, by decide⟩
  simp [acceptBid, stC1, bidL, orderL, streamL, stC1after, tradeC1, lowerEqOpt,
    jsToLower, List.find?]
  norm_num

end Volt
